import Mathlib

set_option linter.unusedVariables false

namespace GasReport

/-! Shallow embedding of the BBD-Gasoline-Report-Bot conversation engine:
the string primitives the handlers use, the report data model
(services/report_service.py), the per-step handlers and the dispatcher
(bot/handlers/report.py, bot/states.py), the keyboards (bot/keyboards.py)
and the allow-list check (services/user_service.py). -/

/-- Python character-list split on a single separator character, mirroring
`str.split(sep)` for a one-character separator. -/
def chSplit (sep : Char) : List Char → List (List Char)
  | [] => [[]]
  | c :: rest =>
    let r := chSplit sep rest
    if c = sep then [] :: r
    else
      match r with
      | h :: t => (c :: h) :: t
      | [] => [[c]]

/-- Python `s.split(sep)` for a one-character separator. -/
def pySplit (sep : Char) (s : String) : List String :=
  (chSplit sep s.data).map (fun cs => String.mk cs)

/-- The uncaught Python exceptions the handlers can raise: IndexError from
`split(':')[1]` on a colon-free payload, AttributeError from touching
`update.message` (or `update.callback_query`) when it is None. -/
inductive PyError where
  | indexError
  | attributeError
  deriving DecidableEq

/-- Python `s.split(':')[1]`: the element at index 1, an IndexError when the
split produced fewer than two parts. -/
def pySplitGet1 (s : String) : Except PyError String :=
  match pySplit ':' s with
  | _ :: v :: _ => Except.ok v
  | _ => Except.error PyError.indexError

/-- Python `s.strip()`. -/
def pyStrip (s : String) : String :=
  String.mk (((s.data.dropWhile Char.isWhitespace).reverse.dropWhile
    Char.isWhitespace).reverse)

/-- Python `s.replace(',', '.')`. -/
def pyReplaceCommaDot (s : String) : String :=
  String.mk (s.data.map (fun c => if c = ',' then '.' else c))

/-- Decimal value of a nonempty all-digit character list; none otherwise. -/
def digitsVal : List Char → Option Nat
  | [] => none
  | l =>
    l.foldl
      (fun acc c =>
        match acc with
        | none => none
        | some n => if c.isDigit then some (10 * n + (c.toNat - 48)) else none)
      (some 0)

/-- Optional leading sign of a numeric literal. -/
def parseSign : List Char → Int × List Char
  | '-' :: r => (-1, r)
  | '+' :: r => (1, r)
  | l => (1, l)

/-- Python `int(text)` on the decimal forms the bot receives: optional
surrounding whitespace, optional sign, decimal digits. -/
def pyParseInt (s : String) : Option Int :=
  let p := parseSign (pyStrip s).data
  (digitsVal p.2).map (fun n => p.1 * (n : Int))

/-- Python `float(text)` on plain decimal literals: optional whitespace and
sign, digits with at most one decimal point, at least one digit. -/
def pyParseFloat (s : String) : Option Rat :=
  let p := parseSign (pyStrip s).data
  match chSplit '.' p.2 with
  | [ip] => (digitsVal ip).map (fun n => (p.1 : Rat) * (n : Rat))
  | [ip, fp] =>
    if ip.isEmpty && fp.isEmpty then none
    else
      match (if ip.isEmpty then some 0 else digitsVal ip),
            (if fp.isEmpty then some 0 else digitsVal fp) with
      | some a, some b =>
        some ((p.1 : Rat) * ((a : Rat) + (b : Rat) / ((10 : Rat) ^ fp.length)))
      | _, _ => none
  | _ => none

/-- Does the second character list start with the first? -/
def headMatch : List Char → List Char → Bool
  | [], _ => true
  | _ :: _, [] => false
  | a :: ps, b :: ls => a = b && headMatch ps ls

/-- Does the pattern occur at some position of the list? -/
def subAt : List Char → List Char → Bool
  | p, [] => headMatch p []
  | p, c :: rest => headMatch p (c :: rest) || subAt p rest

/-- Python substring test `pat in s`. -/
def pyInStr (pat s : String) : Bool := subAt pat.data s.data

/-- A Python datetime.date value. -/
structure PyDate where
  year : Nat
  month : Nat
  day : Nat
  deriving DecidableEq

/-- Python `date.fromisoformat` on the strict `YYYY-MM-DD` layout (used for
the calendar-button callback payloads). -/
def date_fromisoformat (s : String) : Option PyDate :=
  match pySplit '-' s with
  | [y, m, d] =>
    if y.length = 4 && m.length = 2 && d.length = 2 then
      match digitsVal y.data, digitsVal m.data, digitsVal d.data with
      | some yn, some mn, some dn =>
        if 1 ≤ mn && mn ≤ 12 && 1 ≤ dn && dn ≤ 31 then some ⟨yn, mn, dn⟩
        else none
      | _, _, _ => none
    else none
  | _ => none

/-- strptime with a day-month-year layout and the given separator. -/
def parseDMY (sep : Char) (t : String) : Option PyDate :=
  match pySplit sep t with
  | [d, m, y] =>
    match digitsVal d.data, digitsVal m.data, digitsVal y.data with
    | some dn, some mn, some yn =>
      if 1 ≤ mn && mn ≤ 12 && 1 ≤ dn && dn ≤ 31 then some ⟨yn, mn, dn⟩
      else none
    | _, _, _ => none
  | _ => none

/-- strptime with the year-month-day layout and `-` separator. -/
def parseYMD (t : String) : Option PyDate :=
  match pySplit '-' t with
  | [y, m, d] =>
    match digitsVal y.data, digitsVal m.data, digitsVal d.data with
    | some yn, some mn, some dn =>
      if 1 ≤ mn && mn ≤ 12 && 1 ≤ dn && dn ≤ 31 then some ⟨yn, mn, dn⟩
      else none
    | _, _, _ => none
  | _ => none

/-- parse_date from bot/handlers/report.py: try DD.MM.YYYY, DD/MM/YYYY,
YYYY-MM-DD in order on the stripped text; none models the ValueError. -/
def parse_date (text : String) : Option PyDate :=
  let t := pyStrip text
  (parseDMY '.' t).orElse (fun _ =>
    (parseDMY '/' t).orElse (fun _ => parseYMD t))

/-- ReportStates from bot/states.py. -/
inductive ReportStates where
  | CAPTAIN | BOAT | PROGRAM | PRIVATE_PROGRAM | PIER
  | DEPARTURE_DATE | RETURN_DATE | REFILL_DATE
  | MAX_SPEED | GASOLINE_REFUEL | TOTAL_GASOLINE | GASOLINE_USED
  | MILEAGE | MILEAGE_PHOTO | BILL_PHOTO | CONFIRM
  deriving DecidableEq

/-- Inbound events from the messaging transport: a callback button press with
its data string, a text message, or a photo with its file id. -/
inductive Event where
  | callback (data : String)
  | text (t : String)
  | photo (file_id : String)
  deriving DecidableEq

/-- A handler returns the next conversation state or ends the conversation
(ConversationHandler.END). -/
inductive Outcome where
  | next (s : ReportStates)
  | ended
  deriving DecidableEq

/-- ReportData from services/report_service.py. Python floats are modelled as
rationals, dates as PyDate, missing optionals as none. -/
structure ReportData where
  telegram_user_id : Int
  captain_name : String := ""
  boat_name : String := ""
  program_name : String := ""
  private_program : Option String := none
  departure_pier : String := ""
  departure_date : Option PyDate := none
  return_date : Option PyDate := none
  refill_date : Option PyDate := none
  max_speed : Int := 0
  gasoline_refuel : Rat := 0
  total_gasoline : Rat := 0
  gasoline_used : Rat := 0
  gasoline_left : Rat := 0
  mileage_ride : Option Rat := none
  mileage_photo_id : Option String := none
  bill_photo_id : Option String := none
  deriving DecidableEq

/-- ReportData(telegram_user_id=uid) with the dataclass defaults. -/
def ReportData.init (uid : Int) : ReportData := { telegram_user_id := uid }

/-- ReportData.is_complete: `all([...])` over captain, boat, program, pier,
the three dates and max_speed > 0 — the fuel quantities are not in the
list. Python truthiness: a string is truthy iff nonempty, None is falsy. -/
def ReportData.is_complete (d : ReportData) : Bool :=
  !(d.captain_name == "") && !(d.boat_name == "") && !(d.program_name == "") &&
  !(d.departure_pier == "") && d.departure_date.isSome && d.return_date.isSome &&
  d.refill_date.isSome && decide (0 < d.max_speed)

/-- ReportData.calculate_gasoline_left:
`gasoline_left = total_gasoline - gasoline_used`. -/
def calculate_gasoline_left (d : ReportData) : ReportData :=
  { d with gasoline_left := d.total_gasoline - d.gasoline_used }

/-- ReportService.create_report: raise ValueError when incomplete, recompute
gasoline_left, then hand the record to the repository; `repoFails` models a
failure inside repository.create (the storage collaborator). -/
def create_report (repoFails : Bool) (d : ReportData) : Except String ReportData :=
  if !d.is_complete then Except.error "Not all required fields are filled"
  else if repoFails then Except.error "database error"
  else Except.ok (calculate_gasoline_left d)

/-- context.user_data: the per-user session dictionary — the in-progress
report and the state history stack. The stack top is the last list element,
matching the Python list used with append / pop / [-1]. -/
structure UserData where
  report : Option ReportData := none
  state_history : List ReportStates := []
  deriving DecidableEq

/-- context.user_data.clear(). -/
def UserData.cleared : UserData := {}

/-- get_report_data: return the session report, inserting
ReportData(telegram_user_id=0) into user_data first when absent. -/
def get_report_data (u : UserData) : ReportData × UserData :=
  match u.report with
  | some r => (r, u)
  | none => (ReportData.init 0, { u with report := some (ReportData.init 0) })

/-- A field assignment `get_report_data(context).field = value`. -/
def setReport (u : UserData) (f : ReportData → ReportData) : UserData :=
  { (get_report_data u).2 with report := some (f (get_report_data u).1) }

/-- save_state: append a state to the history stack (creating the list when
absent — the empty list behaves the same). -/
def save_state (u : UserData) (state : ReportStates) : UserData :=
  { u with state_history := u.state_history ++ [state] }

/-- cancel: clear user_data and end the conversation. -/
def cancel (u : UserData) : UserData × Outcome := (UserData.cleared, Outcome.ended)

/-- The states for which goto_state has an edit_message_text branch; the
numeric, optional and confirm states fall through its if/elif chain and no
prompt is rendered for them. -/
def goto_state_renders : ReportStates → Bool
  | .CAPTAIN | .BOAT | .PROGRAM | .PRIVATE_PROGRAM | .PIER
  | .DEPARTURE_DATE | .RETURN_DATE | .REFILL_DATE => true
  | _ => false

/-- goto_state: the prompt it renders (if any) paired with the state it
returns; it returns the requested state whether or not a prompt was shown. -/
def goto_state (state : ReportStates) : Option ReportStates × ReportStates :=
  (if goto_state_renders state then some state else none, state)

/-- handle_back: pop the current state off the history; with more than one
remembered entry go to the new top via goto_state, otherwise cancel.
`history[-1]` on an empty list would raise IndexError, unreachable under the
length guard. -/
def handle_back (u : UserData) : Except PyError (UserData × Outcome) :=
  if u.state_history.length > 1 then
    let h2 := u.state_history.dropLast
    match h2.getLast? with
    | some prev =>
      Except.ok ({ u with state_history := h2 }, Outcome.next (goto_state prev).2)
    | none => Except.error PyError.indexError
  else Except.ok (cancel u)

/-- The prompt handle_back shows: on a pop it renders through goto_state,
which shows the previous step only for the selection and date states. -/
def handle_back_rendered (u : UserData) : Option ReportStates :=
  if u.state_history.length > 1 then
    match u.state_history.dropLast.getLast? with
    | some prev => (goto_state prev).1
    | none => none
  else none

/-- captain_selected: at the first step `back` is routed to cancel; any other
callback payload is split on `:` and its second part stored as the captain,
with no membership check against the captain list. -/
def captain_selected (u : UserData) (ev : Event) : Except PyError (UserData × Outcome) :=
  match ev with
  | .callback data =>
    if data = "back" then Except.ok (cancel u)
    else if data = "cancel" then Except.ok (cancel u)
    else
      match pySplitGet1 data with
      | .error e => Except.error e
      | .ok captain =>
        Except.ok
          (save_state (setReport u (fun r => { r with captain_name := captain })) .BOAT,
           Outcome.next .BOAT)
  | _ => Except.error PyError.attributeError

/-- boat_selected. -/
def boat_selected (u : UserData) (ev : Event) : Except PyError (UserData × Outcome) :=
  match ev with
  | .callback data =>
    if data = "back" then handle_back u
    else if data = "cancel" then Except.ok (cancel u)
    else
      match pySplitGet1 data with
      | .error e => Except.error e
      | .ok boat =>
        Except.ok
          (save_state (setReport u (fun r => { r with boat_name := boat })) .PROGRAM,
           Outcome.next .PROGRAM)
  | _ => Except.error PyError.attributeError

/-- program_selected: stores the selected program, then branches — the
sentinel "N/A" goes to PRIVATE_PROGRAM, everything else to PIER. -/
def program_selected (u : UserData) (ev : Event) : Except PyError (UserData × Outcome) :=
  match ev with
  | .callback data =>
    if data = "back" then handle_back u
    else if data = "cancel" then Except.ok (cancel u)
    else
      match pySplitGet1 data with
      | .error e => Except.error e
      | .ok program =>
        let u1 := setReport u (fun r => { r with program_name := program })
        if program = "N/A" then
          Except.ok (save_state u1 .PRIVATE_PROGRAM, Outcome.next .PRIVATE_PROGRAM)
        else
          Except.ok (save_state u1 .PIER, Outcome.next .PIER)
  | _ => Except.error PyError.attributeError

/-- private_program_selected. -/
def private_program_selected (u : UserData) (ev : Event) : Except PyError (UserData × Outcome) :=
  match ev with
  | .callback data =>
    if data = "back" then handle_back u
    else if data = "cancel" then Except.ok (cancel u)
    else
      match pySplitGet1 data with
      | .error e => Except.error e
      | .ok pp =>
        Except.ok
          (save_state (setReport u (fun r => { r with private_program := some pp })) .PIER,
           Outcome.next .PIER)
  | _ => Except.error PyError.attributeError

/-- pier_selected. -/
def pier_selected (u : UserData) (ev : Event) : Except PyError (UserData × Outcome) :=
  match ev with
  | .callback data =>
    if data = "back" then handle_back u
    else if data = "cancel" then Except.ok (cancel u)
    else
      match pySplitGet1 data with
      | .error e => Except.error e
      | .ok pier =>
        Except.ok
          (save_state (setReport u (fun r => { r with departure_pier := pier })) .DEPARTURE_DATE,
           Outcome.next .DEPARTURE_DATE)
  | _ => Except.error PyError.attributeError

/-- departure_date_input: a calendar callback `departure:YYYY-MM-DD` (split
and fromisoformat, IndexError and ValueError both caught, silently staying on
the step) or free text tried against the three formats. -/
def departure_date_input (u : UserData) (ev : Event) : Except PyError (UserData × Outcome) :=
  match ev with
  | .callback data =>
    if data = "back" then handle_back u
    else if data = "cancel" then Except.ok (cancel u)
    else
      match pySplit ':' data with
      | _ :: ds :: _ =>
        match date_fromisoformat ds with
        | some dep =>
          Except.ok
            (save_state (setReport u (fun r => { r with departure_date := some dep })) .RETURN_DATE,
             Outcome.next .RETURN_DATE)
        | none => Except.ok (u, Outcome.next .DEPARTURE_DATE)
      | _ => Except.ok (u, Outcome.next .DEPARTURE_DATE)
  | .text t =>
    match parse_date t with
    | some dep =>
      Except.ok
        (save_state (setReport u (fun r => { r with departure_date := some dep })) .RETURN_DATE,
         Outcome.next .RETURN_DATE)
    | none => Except.ok (u, Outcome.next .DEPARTURE_DATE)
  | .photo _ => Except.error PyError.attributeError

/-- return_date_input. -/
def return_date_input (u : UserData) (ev : Event) : Except PyError (UserData × Outcome) :=
  match ev with
  | .callback data =>
    if data = "back" then handle_back u
    else if data = "cancel" then Except.ok (cancel u)
    else
      match pySplit ':' data with
      | _ :: ds :: _ =>
        match date_fromisoformat ds with
        | some rd =>
          Except.ok
            (save_state (setReport u (fun r => { r with return_date := some rd })) .REFILL_DATE,
             Outcome.next .REFILL_DATE)
        | none => Except.ok (u, Outcome.next .RETURN_DATE)
      | _ => Except.ok (u, Outcome.next .RETURN_DATE)
  | .text t =>
    match parse_date t with
    | some rd =>
      Except.ok
        (save_state (setReport u (fun r => { r with return_date := some rd })) .REFILL_DATE,
         Outcome.next .REFILL_DATE)
    | none => Except.ok (u, Outcome.next .RETURN_DATE)
  | .photo _ => Except.error PyError.attributeError

/-- refill_date_input. -/
def refill_date_input (u : UserData) (ev : Event) : Except PyError (UserData × Outcome) :=
  match ev with
  | .callback data =>
    if data = "back" then handle_back u
    else if data = "cancel" then Except.ok (cancel u)
    else
      match pySplit ':' data with
      | _ :: ds :: _ =>
        match date_fromisoformat ds with
        | some rf =>
          Except.ok
            (save_state (setReport u (fun r => { r with refill_date := some rf })) .MAX_SPEED,
             Outcome.next .MAX_SPEED)
        | none => Except.ok (u, Outcome.next .REFILL_DATE)
      | _ => Except.ok (u, Outcome.next .REFILL_DATE)
  | .text t =>
    match parse_date t with
    | some rf =>
      Except.ok
        (save_state (setReport u (fun r => { r with refill_date := some rf })) .MAX_SPEED,
         Outcome.next .MAX_SPEED)
    | none => Except.ok (u, Outcome.next .REFILL_DATE)
  | .photo _ => Except.error PyError.attributeError

/-- max_speed_input: a callback other than back/cancel falls through to
`int(update.message.text ...)` where update.message is None — an
AttributeError; text is parsed as an integer, failure re-prompts. -/
def max_speed_input (u : UserData) (ev : Event) : Except PyError (UserData × Outcome) :=
  match ev with
  | .callback data =>
    if data = "back" then handle_back u
    else if data = "cancel" then Except.ok (cancel u)
    else Except.error PyError.attributeError
  | .text t =>
    match pyParseInt (pyStrip t) with
    | some speed =>
      Except.ok
        (save_state (setReport u (fun r => { r with max_speed := speed })) .GASOLINE_REFUEL,
         Outcome.next .GASOLINE_REFUEL)
    | none => Except.ok (u, Outcome.next .MAX_SPEED)
  | .photo _ => Except.error PyError.attributeError

/-- gasoline_refuel_input. -/
def gasoline_refuel_input (u : UserData) (ev : Event) : Except PyError (UserData × Outcome) :=
  match ev with
  | .callback data =>
    if data = "back" then handle_back u
    else if data = "cancel" then Except.ok (cancel u)
    else Except.error PyError.attributeError
  | .text t =>
    match pyParseFloat (pyReplaceCommaDot (pyStrip t)) with
    | some refuel =>
      Except.ok
        (save_state (setReport u (fun r => { r with gasoline_refuel := refuel })) .TOTAL_GASOLINE,
         Outcome.next .TOTAL_GASOLINE)
    | none => Except.ok (u, Outcome.next .GASOLINE_REFUEL)
  | .photo _ => Except.error PyError.attributeError

/-- total_gasoline_input. -/
def total_gasoline_input (u : UserData) (ev : Event) : Except PyError (UserData × Outcome) :=
  match ev with
  | .callback data =>
    if data = "back" then handle_back u
    else if data = "cancel" then Except.ok (cancel u)
    else Except.error PyError.attributeError
  | .text t =>
    match pyParseFloat (pyReplaceCommaDot (pyStrip t)) with
    | some total =>
      Except.ok
        (save_state (setReport u (fun r => { r with total_gasoline := total })) .GASOLINE_USED,
         Outcome.next .GASOLINE_USED)
    | none => Except.ok (u, Outcome.next .TOTAL_GASOLINE)
  | .photo _ => Except.error PyError.attributeError

/-- gasoline_used_input: stores the used amount and immediately recomputes
gasoline_left via calculate_gasoline_left before advancing to MILEAGE. -/
def gasoline_used_input (u : UserData) (ev : Event) : Except PyError (UserData × Outcome) :=
  match ev with
  | .callback data =>
    if data = "back" then handle_back u
    else if data = "cancel" then Except.ok (cancel u)
    else Except.error PyError.attributeError
  | .text t =>
    match pyParseFloat (pyReplaceCommaDot (pyStrip t)) with
    | some used =>
      Except.ok
        (save_state
          (setReport u (fun r => calculate_gasoline_left { r with gasoline_used := used }))
          .MILEAGE,
         Outcome.next .MILEAGE)
    | none => Except.ok (u, Outcome.next .GASOLINE_USED)
  | .photo _ => Except.error PyError.attributeError

/-- mileage_input: the skip branch fires on any callback payload containing
the substring "skip"; other callbacks fall through to the text parse on a
None message — an AttributeError. -/
def mileage_input (u : UserData) (ev : Event) : Except PyError (UserData × Outcome) :=
  match ev with
  | .callback data =>
    if data = "back" then handle_back u
    else if data = "cancel" then Except.ok (cancel u)
    else if pyInStr "skip" data then
      Except.ok
        (save_state (setReport u (fun r => { r with mileage_ride := none })) .MILEAGE_PHOTO,
         Outcome.next .MILEAGE_PHOTO)
    else Except.error PyError.attributeError
  | .text t =>
    match pyParseFloat (pyReplaceCommaDot (pyStrip t)) with
    | some mileage =>
      Except.ok
        (save_state (setReport u (fun r => { r with mileage_ride := some mileage })) .MILEAGE_PHOTO,
         Outcome.next .MILEAGE_PHOTO)
    | none => Except.ok (u, Outcome.next .MILEAGE)
  | .photo _ => Except.error PyError.attributeError

/-- mileage_photo_input: skip-substring callback clears the photo and
advances; a photo stores its file id; any other callback reaches the final
`update.message.reply_text` on a None message — an AttributeError; a plain
text message re-prompts. -/
def mileage_photo_input (u : UserData) (ev : Event) : Except PyError (UserData × Outcome) :=
  match ev with
  | .callback data =>
    if data = "back" then handle_back u
    else if data = "cancel" then Except.ok (cancel u)
    else if pyInStr "skip" data then
      Except.ok
        (save_state (setReport u (fun r => { r with mileage_photo_id := none })) .BILL_PHOTO,
         Outcome.next .BILL_PHOTO)
    else Except.error PyError.attributeError
  | .photo fid =>
    Except.ok
      (save_state (setReport u (fun r => { r with mileage_photo_id := some fid })) .BILL_PHOTO,
       Outcome.next .BILL_PHOTO)
  | .text _ => Except.ok (u, Outcome.next .MILEAGE_PHOTO)

/-- bill_photo_input: the skip branch only assigns None and then falls
through — every callback other than back/cancel (with or without "skip")
continues to the summary and CONFIRM; a photo stores its id and continues;
a photo-less message re-prompts. -/
def bill_photo_input (u : UserData) (ev : Event) : Except PyError (UserData × Outcome) :=
  match ev with
  | .callback data =>
    if data = "back" then handle_back u
    else if data = "cancel" then Except.ok (cancel u)
    else
      let u1 :=
        if pyInStr "skip" data then
          setReport u (fun r => { r with bill_photo_id := none })
        else u
      Except.ok (save_state u1 .CONFIRM, Outcome.next .CONFIRM)
  | .photo fid =>
    Except.ok
      (save_state (setReport u (fun r => { r with bill_photo_id := some fid })) .CONFIRM,
       Outcome.next .CONFIRM)
  | .text _ => Except.ok (u, Outcome.next .BILL_PHOTO)

/-- confirm_submission: splits the action from the payload (IndexError on a
colon-free payload such as a stale `back` button); `yes` attempts
create_report, clearing user_data only on success and leaving it untouched
on failure, ending the conversation either way; `no` cancels; `edit` resets
the history to [CAPTAIN] keeping the record; anything else stays. -/
def confirm_submission (repoFails : Bool) (u : UserData) (ev : Event) :
    Except PyError (UserData × Outcome) :=
  match ev with
  | .callback data =>
    match pySplitGet1 data with
    | .error e => Except.error e
    | .ok action =>
      if action = "yes" then
        let p := get_report_data u
        match create_report repoFails p.1 with
        | .ok _ => Except.ok (UserData.cleared, Outcome.ended)
        | .error _ => Except.ok (p.2, Outcome.ended)
      else if action = "no" then Except.ok (cancel u)
      else if action = "edit" then
        Except.ok ({ u with state_history := [.CAPTAIN] }, Outcome.next .CAPTAIN)
      else Except.ok (u, Outcome.next .CONFIRM)
  | _ => Except.error PyError.attributeError

/-- UserService.is_allowed over the key set of the loaded allow-list: when
the list contains the id 0 everyone is allowed, otherwise membership. -/
def is_allowed (users : List Int) (telegram_id : Int) : Bool :=
  if 0 ∈ users then true
  else decide (telegram_id ∈ users)

/-- start_report: denied users end immediately; otherwise a fresh report for
the user and a history of exactly [CAPTAIN]. -/
def start_report (users : List Int) (uid : Int) (u : UserData) : UserData × Outcome :=
  if !is_allowed users uid then (u, Outcome.ended)
  else
    ({ report := some (ReportData.init uid), state_history := [ReportStates.CAPTAIN] },
     Outcome.next .CAPTAIN)

/-- build_selection_keyboard as the set of callback_data strings it offers:
`cbPre:item` for each item, plus back and cancel when add_back. -/
def build_selection_keyboard (items : List String) (cbPre : String) (add_back : Bool) :
    List String :=
  items.map (fun item => cbPre ++ ":" ++ item) ++
    (if add_back then ["back", "cancel"] else [])

/-- The ConversationHandler states table: which handler runs for which update
kind in each state; an update with no registered handler for the current
state is ignored and the conversation stays where it is. -/
def dispatch (repoFails : Bool) (st : ReportStates) (u : UserData) (ev : Event) :
    Except PyError (UserData × Outcome) :=
  match st, ev with
  | .CAPTAIN, .callback _ => captain_selected u ev
  | .BOAT, .callback _ => boat_selected u ev
  | .PROGRAM, .callback _ => program_selected u ev
  | .PRIVATE_PROGRAM, .callback _ => private_program_selected u ev
  | .PIER, .callback _ => pier_selected u ev
  | .DEPARTURE_DATE, .callback _ => departure_date_input u ev
  | .DEPARTURE_DATE, .text _ => departure_date_input u ev
  | .RETURN_DATE, .callback _ => return_date_input u ev
  | .RETURN_DATE, .text _ => return_date_input u ev
  | .REFILL_DATE, .callback _ => refill_date_input u ev
  | .REFILL_DATE, .text _ => refill_date_input u ev
  | .MAX_SPEED, .callback _ => max_speed_input u ev
  | .MAX_SPEED, .text _ => max_speed_input u ev
  | .GASOLINE_REFUEL, .callback _ => gasoline_refuel_input u ev
  | .GASOLINE_REFUEL, .text _ => gasoline_refuel_input u ev
  | .TOTAL_GASOLINE, .callback _ => total_gasoline_input u ev
  | .TOTAL_GASOLINE, .text _ => total_gasoline_input u ev
  | .GASOLINE_USED, .callback _ => gasoline_used_input u ev
  | .GASOLINE_USED, .text _ => gasoline_used_input u ev
  | .MILEAGE, .callback _ => mileage_input u ev
  | .MILEAGE, .text _ => mileage_input u ev
  | .MILEAGE_PHOTO, .callback _ => mileage_photo_input u ev
  | .MILEAGE_PHOTO, .photo _ => mileage_photo_input u ev
  | .BILL_PHOTO, .callback _ => bill_photo_input u ev
  | .BILL_PHOTO, .photo _ => bill_photo_input u ev
  | .CONFIRM, .callback _ => confirm_submission repoFails u ev
  | _, _ => Except.ok (u, Outcome.next st)

/-- Top of the history stack. -/
def histTop (u : UserData) : Option ReportStates := u.state_history.getLast?

/-- The session states reachable while a session is active: start_report
creates one, and each dispatched event that returns a next state continues
one. -/
inductive Reaches (repoFails : Bool) : ReportStates → UserData → Prop where
  | start (users : List Int) (uid : Int) (u u' : UserData) (st : ReportStates) :
      start_report users uid u = (u', Outcome.next st) → Reaches repoFails st u'
  | step (st : ReportStates) (u : UserData) (ev : Event) (u' : UserData) (st' : ReportStates) :
      Reaches repoFails st u → dispatch repoFails st u ev = Except.ok (u', Outcome.next st') →
      Reaches repoFails st' u'

/-- The update kinds for which a handler is registered in the states table;
everything else is ignored by the conversation. -/
def registered : ReportStates → Event → Bool
  | _, .callback _ => true
  | .DEPARTURE_DATE, .text _ | .RETURN_DATE, .text _ | .REFILL_DATE, .text _
  | .MAX_SPEED, .text _ | .GASOLINE_REFUEL, .text _ | .TOTAL_GASOLINE, .text _
  | .GASOLINE_USED, .text _ | .MILEAGE, .text _ => true
  | .MILEAGE_PHOTO, .photo _ | .BILL_PHOTO, .photo _ => true
  | _, _ => false

/-- Does the payload contain a colon, i.e. does `split(':')` give at least
two parts? -/
def hasColon (d : String) : Bool :=
  match pySplit ':' d with
  | _ :: _ :: _ => true
  | _ => false

/-- The part of the payload before the first colon (`split(':')[0]`). -/
def headTok (d : String) : String :=
  match pySplit ':' d with
  | h :: _ => h
  | [] => ""

/-- The payload shapes each step's own render offers: the per-step
`prefix:value` buttons from keyboards.py, the back/cancel buttons where the
step's keyboard carries them (all steps except captain, whose keyboard is
built with add_back=False, and confirm, whose keyboard offers only the
confirm:yes/no/edit buttons), free text at the steps with a text handler,
and a photo at the photo steps. -/
def recognized : ReportStates → Event → Bool
  | .CAPTAIN, .callback d => headTok d == "captain" && hasColon d
  | .BOAT, .callback d =>
      d == "back" || d == "cancel" || (headTok d == "boat" && hasColon d)
  | .PROGRAM, .callback d =>
      d == "back" || d == "cancel" || (headTok d == "program" && hasColon d)
  | .PRIVATE_PROGRAM, .callback d =>
      d == "back" || d == "cancel" || (headTok d == "private_program" && hasColon d)
  | .PIER, .callback d =>
      d == "back" || d == "cancel" || (headTok d == "pier" && hasColon d)
  | .DEPARTURE_DATE, .callback d =>
      d == "back" || d == "cancel" || (headTok d == "departure" && hasColon d)
  | .RETURN_DATE, .callback d =>
      d == "back" || d == "cancel" || (headTok d == "return" && hasColon d)
  | .REFILL_DATE, .callback d =>
      d == "back" || d == "cancel" || (headTok d == "refill" && hasColon d)
  | .MAX_SPEED, .callback d | .GASOLINE_REFUEL, .callback d
  | .TOTAL_GASOLINE, .callback d | .GASOLINE_USED, .callback d =>
      d == "back" || d == "cancel"
  | .MILEAGE, .callback d => d == "back" || d == "cancel" || d == "mileage:skip"
  | .MILEAGE_PHOTO, .callback d =>
      d == "back" || d == "cancel" || d == "mileage_photo:skip"
  | .BILL_PHOTO, .callback d =>
      d == "back" || d == "cancel" || d == "bill_photo:skip"
  | .CONFIRM, .callback d =>
      d == "confirm:yes" || d == "confirm:no" || d == "confirm:edit"
  | .DEPARTURE_DATE, .text _ | .RETURN_DATE, .text _ | .REFILL_DATE, .text _
  | .MAX_SPEED, .text _ | .GASOLINE_REFUEL, .text _ | .TOTAL_GASOLINE, .text _
  | .GASOLINE_USED, .text _ | .MILEAGE, .text _ => true
  | .MILEAGE_PHOTO, .photo _ | .BILL_PHOTO, .photo _ => true
  | _, _ => false

/-! Concrete sessions and records used by witnesses and counterexamples. -/

/-- A fresh session exactly as start_report creates it for user 7. -/
def uStart : UserData :=
  { report := some (ReportData.init 7), state_history := [ReportStates.CAPTAIN] }

/-- A record with every field of is_complete filled while all three fuel
quantities are still zero. -/
def rC : ReportData :=
  { telegram_user_id := 7, captain_name := "Alice", boat_name := "Orca",
    program_name := "Snorkel", departure_pier := "Dock1",
    departure_date := some ⟨2026, 1, 10⟩, return_date := some ⟨2026, 1, 10⟩,
    refill_date := some ⟨2026, 1, 10⟩, max_speed := 30 }

/-- A session sitting at CONFIRM with the record rC and the full linear
history. -/
def uC : UserData :=
  { report := some rC,
    state_history := [.CAPTAIN, .BOAT, .PROGRAM, .PIER, .DEPARTURE_DATE, .RETURN_DATE,
      .REFILL_DATE, .MAX_SPEED, .GASOLINE_REFUEL, .TOTAL_GASOLINE, .GASOLINE_USED,
      .MILEAGE, .MILEAGE_PHOTO, .BILL_PHOTO, .CONFIRM] }

/-- A session sitting at GASOLINE_REFUEL with its true history, one step past
MAX_SPEED. -/
def u9 : UserData :=
  { report := some rC,
    state_history := [.CAPTAIN, .BOAT, .PROGRAM, .PIER, .DEPARTURE_DATE, .RETURN_DATE,
      .REFILL_DATE, .MAX_SPEED, .GASOLINE_REFUEL] }

/-- A session sitting at PIER with the record rC, one step past PROGRAM. -/
def uP : UserData :=
  { report := some rC, state_history := [.CAPTAIN, .BOAT, .PROGRAM, .PIER] }

/-! History-top lemmas: each handler, when it returns a next state, leaves
that state on top of the history stack. -/

theorem histTop_save_state (u : UserData) (s : ReportStates) :
    histTop (save_state u s) = some s := by
  simp [histTop, save_state]

theorem handle_back_top (u u' : UserData) (st' : ReportStates)
    (h : handle_back u = Except.ok (u', Outcome.next st')) :
    histTop u' = some st' := by
  unfold handle_back at h
  split at h
  · cases hg : u.state_history.dropLast.getLast? with
    | none => simp only [hg] at h; exact absurd h (by simp)
    | some prev =>
      simp only [hg, goto_state, Except.ok.injEq, Prod.mk.injEq, Outcome.next.injEq] at h
      obtain ⟨hu, hst⟩ := h
      subst hu; subst hst
      simpa [histTop] using hg
  · simp [cancel] at h

theorem captain_selected_top (u u' : UserData) (st' : ReportStates) (ev : Event)
    (h : captain_selected u ev = Except.ok (u', Outcome.next st')) :
    histTop u' = some st' := by
  cases ev with
  | callback data =>
    simp only [captain_selected] at h
    split at h
    · simp [cancel] at h
    · split at h
      · simp [cancel] at h
      · cases hs : pySplitGet1 data with
        | error e => simp only [hs] at h; exact absurd h (by simp)
        | ok v =>
          simp only [hs, Except.ok.injEq, Prod.mk.injEq, Outcome.next.injEq] at h
          obtain ⟨hu, hst⟩ := h
          subst hu; subst hst
          exact histTop_save_state _ _
  | text t => exact absurd h (by simp [captain_selected])
  | photo f => exact absurd h (by simp [captain_selected])

theorem boat_selected_top (u u' : UserData) (st' : ReportStates) (ev : Event)
    (h : boat_selected u ev = Except.ok (u', Outcome.next st')) :
    histTop u' = some st' := by
  cases ev with
  | callback data =>
    simp only [boat_selected] at h
    split at h
    · exact handle_back_top u u' st' h
    · split at h
      · simp [cancel] at h
      · cases hs : pySplitGet1 data with
        | error e => simp only [hs] at h; exact absurd h (by simp)
        | ok v =>
          simp only [hs, Except.ok.injEq, Prod.mk.injEq, Outcome.next.injEq] at h
          obtain ⟨hu, hst⟩ := h
          subst hu; subst hst
          exact histTop_save_state _ _
  | text t => exact absurd h (by simp [boat_selected])
  | photo f => exact absurd h (by simp [boat_selected])

theorem program_selected_top (u u' : UserData) (st' : ReportStates) (ev : Event)
    (h : program_selected u ev = Except.ok (u', Outcome.next st')) :
    histTop u' = some st' := by
  cases ev with
  | callback data =>
    simp only [program_selected] at h
    split at h
    · exact handle_back_top u u' st' h
    · split at h
      · simp [cancel] at h
      · cases hs : pySplitGet1 data with
        | error e => simp only [hs] at h; exact absurd h (by simp)
        | ok v =>
          simp only [hs] at h
          split at h <;>
          · simp only [Except.ok.injEq, Prod.mk.injEq, Outcome.next.injEq] at h
            obtain ⟨hu, hst⟩ := h
            subst hu; subst hst
            exact histTop_save_state _ _
  | text t => exact absurd h (by simp [program_selected])
  | photo f => exact absurd h (by simp [program_selected])

theorem private_program_selected_top (u u' : UserData) (st' : ReportStates) (ev : Event)
    (h : private_program_selected u ev = Except.ok (u', Outcome.next st')) :
    histTop u' = some st' := by
  cases ev with
  | callback data =>
    simp only [private_program_selected] at h
    split at h
    · exact handle_back_top u u' st' h
    · split at h
      · simp [cancel] at h
      · cases hs : pySplitGet1 data with
        | error e => simp only [hs] at h; exact absurd h (by simp)
        | ok v =>
          simp only [hs, Except.ok.injEq, Prod.mk.injEq, Outcome.next.injEq] at h
          obtain ⟨hu, hst⟩ := h
          subst hu; subst hst
          exact histTop_save_state _ _
  | text t => exact absurd h (by simp [private_program_selected])
  | photo f => exact absurd h (by simp [private_program_selected])

theorem pier_selected_top (u u' : UserData) (st' : ReportStates) (ev : Event)
    (h : pier_selected u ev = Except.ok (u', Outcome.next st')) :
    histTop u' = some st' := by
  cases ev with
  | callback data =>
    simp only [pier_selected] at h
    split at h
    · exact handle_back_top u u' st' h
    · split at h
      · simp [cancel] at h
      · cases hs : pySplitGet1 data with
        | error e => simp only [hs] at h; exact absurd h (by simp)
        | ok v =>
          simp only [hs, Except.ok.injEq, Prod.mk.injEq, Outcome.next.injEq] at h
          obtain ⟨hu, hst⟩ := h
          subst hu; subst hst
          exact histTop_save_state _ _
  | text t => exact absurd h (by simp [pier_selected])
  | photo f => exact absurd h (by simp [pier_selected])

theorem departure_date_input_top (u u' : UserData) (st' : ReportStates) (ev : Event)
    (hinv : histTop u = some .DEPARTURE_DATE)
    (h : departure_date_input u ev = Except.ok (u', Outcome.next st')) :
    histTop u' = some st' := by
  cases ev with
  | callback data =>
    simp only [departure_date_input] at h
    split at h
    · exact handle_back_top u u' st' h
    · split at h
      · simp [cancel] at h
      · split at h
        · split at h <;>
          · simp only [Except.ok.injEq, Prod.mk.injEq, Outcome.next.injEq] at h
            obtain ⟨hu, hst⟩ := h
            subst hu; subst hst
            first
            | exact histTop_save_state _ _
            | exact hinv
        · simp only [Except.ok.injEq, Prod.mk.injEq, Outcome.next.injEq] at h
          obtain ⟨hu, hst⟩ := h
          subst hu; subst hst
          exact hinv
  | text t =>
    simp only [departure_date_input] at h
    split at h <;>
    · simp only [Except.ok.injEq, Prod.mk.injEq, Outcome.next.injEq] at h
      obtain ⟨hu, hst⟩ := h
      subst hu; subst hst
      first
      | exact histTop_save_state _ _
      | exact hinv
  | photo f => exact absurd h (by simp [departure_date_input])

theorem return_date_input_top (u u' : UserData) (st' : ReportStates) (ev : Event)
    (hinv : histTop u = some .RETURN_DATE)
    (h : return_date_input u ev = Except.ok (u', Outcome.next st')) :
    histTop u' = some st' := by
  cases ev with
  | callback data =>
    simp only [return_date_input] at h
    split at h
    · exact handle_back_top u u' st' h
    · split at h
      · simp [cancel] at h
      · split at h
        · split at h <;>
          · simp only [Except.ok.injEq, Prod.mk.injEq, Outcome.next.injEq] at h
            obtain ⟨hu, hst⟩ := h
            subst hu; subst hst
            first
            | exact histTop_save_state _ _
            | exact hinv
        · simp only [Except.ok.injEq, Prod.mk.injEq, Outcome.next.injEq] at h
          obtain ⟨hu, hst⟩ := h
          subst hu; subst hst
          exact hinv
  | text t =>
    simp only [return_date_input] at h
    split at h <;>
    · simp only [Except.ok.injEq, Prod.mk.injEq, Outcome.next.injEq] at h
      obtain ⟨hu, hst⟩ := h
      subst hu; subst hst
      first
      | exact histTop_save_state _ _
      | exact hinv
  | photo f => exact absurd h (by simp [return_date_input])

theorem refill_date_input_top (u u' : UserData) (st' : ReportStates) (ev : Event)
    (hinv : histTop u = some .REFILL_DATE)
    (h : refill_date_input u ev = Except.ok (u', Outcome.next st')) :
    histTop u' = some st' := by
  cases ev with
  | callback data =>
    simp only [refill_date_input] at h
    split at h
    · exact handle_back_top u u' st' h
    · split at h
      · simp [cancel] at h
      · split at h
        · split at h <;>
          · simp only [Except.ok.injEq, Prod.mk.injEq, Outcome.next.injEq] at h
            obtain ⟨hu, hst⟩ := h
            subst hu; subst hst
            first
            | exact histTop_save_state _ _
            | exact hinv
        · simp only [Except.ok.injEq, Prod.mk.injEq, Outcome.next.injEq] at h
          obtain ⟨hu, hst⟩ := h
          subst hu; subst hst
          exact hinv
  | text t =>
    simp only [refill_date_input] at h
    split at h <;>
    · simp only [Except.ok.injEq, Prod.mk.injEq, Outcome.next.injEq] at h
      obtain ⟨hu, hst⟩ := h
      subst hu; subst hst
      first
      | exact histTop_save_state _ _
      | exact hinv
  | photo f => exact absurd h (by simp [refill_date_input])

theorem max_speed_input_top (u u' : UserData) (st' : ReportStates) (ev : Event)
    (hinv : histTop u = some .MAX_SPEED)
    (h : max_speed_input u ev = Except.ok (u', Outcome.next st')) :
    histTop u' = some st' := by
  cases ev with
  | callback data =>
    simp only [max_speed_input] at h
    split at h
    · exact handle_back_top u u' st' h
    · split at h
      · simp [cancel] at h
      · exact absurd h (by simp)
  | text t =>
    simp only [max_speed_input] at h
    split at h <;>
    · simp only [Except.ok.injEq, Prod.mk.injEq, Outcome.next.injEq] at h
      obtain ⟨hu, hst⟩ := h
      subst hu; subst hst
      first
      | exact histTop_save_state _ _
      | exact hinv
  | photo f => exact absurd h (by simp [max_speed_input])

theorem gasoline_refuel_input_top (u u' : UserData) (st' : ReportStates) (ev : Event)
    (hinv : histTop u = some .GASOLINE_REFUEL)
    (h : gasoline_refuel_input u ev = Except.ok (u', Outcome.next st')) :
    histTop u' = some st' := by
  cases ev with
  | callback data =>
    simp only [gasoline_refuel_input] at h
    split at h
    · exact handle_back_top u u' st' h
    · split at h
      · simp [cancel] at h
      · exact absurd h (by simp)
  | text t =>
    simp only [gasoline_refuel_input] at h
    split at h <;>
    · simp only [Except.ok.injEq, Prod.mk.injEq, Outcome.next.injEq] at h
      obtain ⟨hu, hst⟩ := h
      subst hu; subst hst
      first
      | exact histTop_save_state _ _
      | exact hinv
  | photo f => exact absurd h (by simp [gasoline_refuel_input])

theorem total_gasoline_input_top (u u' : UserData) (st' : ReportStates) (ev : Event)
    (hinv : histTop u = some .TOTAL_GASOLINE)
    (h : total_gasoline_input u ev = Except.ok (u', Outcome.next st')) :
    histTop u' = some st' := by
  cases ev with
  | callback data =>
    simp only [total_gasoline_input] at h
    split at h
    · exact handle_back_top u u' st' h
    · split at h
      · simp [cancel] at h
      · exact absurd h (by simp)
  | text t =>
    simp only [total_gasoline_input] at h
    split at h <;>
    · simp only [Except.ok.injEq, Prod.mk.injEq, Outcome.next.injEq] at h
      obtain ⟨hu, hst⟩ := h
      subst hu; subst hst
      first
      | exact histTop_save_state _ _
      | exact hinv
  | photo f => exact absurd h (by simp [total_gasoline_input])

theorem gasoline_used_input_top (u u' : UserData) (st' : ReportStates) (ev : Event)
    (hinv : histTop u = some .GASOLINE_USED)
    (h : gasoline_used_input u ev = Except.ok (u', Outcome.next st')) :
    histTop u' = some st' := by
  cases ev with
  | callback data =>
    simp only [gasoline_used_input] at h
    split at h
    · exact handle_back_top u u' st' h
    · split at h
      · simp [cancel] at h
      · exact absurd h (by simp)
  | text t =>
    simp only [gasoline_used_input] at h
    split at h <;>
    · simp only [Except.ok.injEq, Prod.mk.injEq, Outcome.next.injEq] at h
      obtain ⟨hu, hst⟩ := h
      subst hu; subst hst
      first
      | exact histTop_save_state _ _
      | exact hinv
  | photo f => exact absurd h (by simp [gasoline_used_input])

theorem mileage_input_top (u u' : UserData) (st' : ReportStates) (ev : Event)
    (hinv : histTop u = some .MILEAGE)
    (h : mileage_input u ev = Except.ok (u', Outcome.next st')) :
    histTop u' = some st' := by
  cases ev with
  | callback data =>
    simp only [mileage_input] at h
    split at h
    · exact handle_back_top u u' st' h
    · split at h
      · simp [cancel] at h
      · split at h
        · simp only [Except.ok.injEq, Prod.mk.injEq, Outcome.next.injEq] at h
          obtain ⟨hu, hst⟩ := h
          subst hu; subst hst
          exact histTop_save_state _ _
        · exact absurd h (by simp)
  | text t =>
    simp only [mileage_input] at h
    split at h <;>
    · simp only [Except.ok.injEq, Prod.mk.injEq, Outcome.next.injEq] at h
      obtain ⟨hu, hst⟩ := h
      subst hu; subst hst
      first
      | exact histTop_save_state _ _
      | exact hinv
  | photo f => exact absurd h (by simp [mileage_input])

theorem mileage_photo_input_top (u u' : UserData) (st' : ReportStates) (ev : Event)
    (hinv : histTop u = some .MILEAGE_PHOTO)
    (h : mileage_photo_input u ev = Except.ok (u', Outcome.next st')) :
    histTop u' = some st' := by
  cases ev with
  | callback data =>
    simp only [mileage_photo_input] at h
    split at h
    · exact handle_back_top u u' st' h
    · split at h
      · simp [cancel] at h
      · split at h
        · simp only [Except.ok.injEq, Prod.mk.injEq, Outcome.next.injEq] at h
          obtain ⟨hu, hst⟩ := h
          subst hu; subst hst
          exact histTop_save_state _ _
        · exact absurd h (by simp)
  | text t =>
    simp only [mileage_photo_input, Except.ok.injEq, Prod.mk.injEq, Outcome.next.injEq] at h
    obtain ⟨hu, hst⟩ := h
    subst hu; subst hst
    exact hinv
  | photo f =>
    simp only [mileage_photo_input, Except.ok.injEq, Prod.mk.injEq, Outcome.next.injEq] at h
    obtain ⟨hu, hst⟩ := h
    subst hu; subst hst
    exact histTop_save_state _ _

theorem bill_photo_input_top (u u' : UserData) (st' : ReportStates) (ev : Event)
    (hinv : histTop u = some .BILL_PHOTO)
    (h : bill_photo_input u ev = Except.ok (u', Outcome.next st')) :
    histTop u' = some st' := by
  cases ev with
  | callback data =>
    simp only [bill_photo_input] at h
    split at h
    · exact handle_back_top u u' st' h
    · split at h
      · simp [cancel] at h
      · simp only [Except.ok.injEq, Prod.mk.injEq, Outcome.next.injEq] at h
        obtain ⟨hu, hst⟩ := h
        subst hu; subst hst
        exact histTop_save_state _ _
  | text t =>
    simp only [bill_photo_input, Except.ok.injEq, Prod.mk.injEq, Outcome.next.injEq] at h
    obtain ⟨hu, hst⟩ := h
    subst hu; subst hst
    exact hinv
  | photo f =>
    simp only [bill_photo_input, Except.ok.injEq, Prod.mk.injEq, Outcome.next.injEq] at h
    obtain ⟨hu, hst⟩ := h
    subst hu; subst hst
    exact histTop_save_state _ _

theorem confirm_submission_top (repoFails : Bool) (u u' : UserData) (st' : ReportStates)
    (ev : Event) (hinv : histTop u = some .CONFIRM)
    (h : confirm_submission repoFails u ev = Except.ok (u', Outcome.next st')) :
    histTop u' = some st' := by
  cases ev with
  | callback data =>
    simp only [confirm_submission] at h
    cases hs : pySplitGet1 data with
    | error e => simp only [hs] at h; exact absurd h (by simp)
    | ok action =>
      simp only [hs] at h
      split at h
      · split at h
        · simp at h
        · simp at h
      · split at h
        · simp [cancel] at h
        · split at h
          · simp only [Except.ok.injEq, Prod.mk.injEq, Outcome.next.injEq] at h
            obtain ⟨hu, hst⟩ := h
            subst hu; subst hst
            rfl
          · simp only [Except.ok.injEq, Prod.mk.injEq, Outcome.next.injEq] at h
            obtain ⟨hu, hst⟩ := h
            subst hu; subst hst
            exact hinv
  | text t => exact absurd h (by simp [confirm_submission])
  | photo f => exact absurd h (by simp [confirm_submission])

theorem start_report_top (users : List Int) (uid : Int) (u u' : UserData) (st : ReportStates)
    (h : start_report users uid u = (u', Outcome.next st)) :
    histTop u' = some st := by
  unfold start_report at h
  split at h
  · simp at h
  · simp only [Prod.mk.injEq, Outcome.next.injEq] at h
    obtain ⟨hu, hst⟩ := h
    subst hu; subst hst
    rfl

theorem ignore_top (u u' : UserData) (st st' : ReportStates)
    (hinv : histTop u = some st)
    (h : (Except.ok (u, Outcome.next st) : Except PyError (UserData × Outcome)) =
      Except.ok (u', Outcome.next st')) :
    histTop u' = some st' := by
  simp only [Except.ok.injEq, Prod.mk.injEq, Outcome.next.injEq] at h
  obtain ⟨hu, hst⟩ := h
  subst hu; subst hst
  exact hinv

theorem dispatch_top (repoFails : Bool) (st st' : ReportStates) (u u' : UserData) (ev : Event)
    (hinv : histTop u = some st)
    (h : dispatch repoFails st u ev = Except.ok (u', Outcome.next st')) :
    histTop u' = some st' := by
  cases st with
  | CAPTAIN =>
    cases ev with
    | callback d => exact captain_selected_top u u' st' (Event.callback d) h
    | text t => exact ignore_top u u' _ st' hinv h
    | photo f => exact ignore_top u u' _ st' hinv h
  | BOAT =>
    cases ev with
    | callback d => exact boat_selected_top u u' st' (Event.callback d) h
    | text t => exact ignore_top u u' _ st' hinv h
    | photo f => exact ignore_top u u' _ st' hinv h
  | PROGRAM =>
    cases ev with
    | callback d => exact program_selected_top u u' st' (Event.callback d) h
    | text t => exact ignore_top u u' _ st' hinv h
    | photo f => exact ignore_top u u' _ st' hinv h
  | PRIVATE_PROGRAM =>
    cases ev with
    | callback d => exact private_program_selected_top u u' st' (Event.callback d) h
    | text t => exact ignore_top u u' _ st' hinv h
    | photo f => exact ignore_top u u' _ st' hinv h
  | PIER =>
    cases ev with
    | callback d => exact pier_selected_top u u' st' (Event.callback d) h
    | text t => exact ignore_top u u' _ st' hinv h
    | photo f => exact ignore_top u u' _ st' hinv h
  | DEPARTURE_DATE =>
    cases ev with
    | callback d => exact departure_date_input_top u u' st' (Event.callback d) hinv h
    | text t => exact departure_date_input_top u u' st' (Event.text t) hinv h
    | photo f => exact ignore_top u u' _ st' hinv h
  | RETURN_DATE =>
    cases ev with
    | callback d => exact return_date_input_top u u' st' (Event.callback d) hinv h
    | text t => exact return_date_input_top u u' st' (Event.text t) hinv h
    | photo f => exact ignore_top u u' _ st' hinv h
  | REFILL_DATE =>
    cases ev with
    | callback d => exact refill_date_input_top u u' st' (Event.callback d) hinv h
    | text t => exact refill_date_input_top u u' st' (Event.text t) hinv h
    | photo f => exact ignore_top u u' _ st' hinv h
  | MAX_SPEED =>
    cases ev with
    | callback d => exact max_speed_input_top u u' st' (Event.callback d) hinv h
    | text t => exact max_speed_input_top u u' st' (Event.text t) hinv h
    | photo f => exact ignore_top u u' _ st' hinv h
  | GASOLINE_REFUEL =>
    cases ev with
    | callback d => exact gasoline_refuel_input_top u u' st' (Event.callback d) hinv h
    | text t => exact gasoline_refuel_input_top u u' st' (Event.text t) hinv h
    | photo f => exact ignore_top u u' _ st' hinv h
  | TOTAL_GASOLINE =>
    cases ev with
    | callback d => exact total_gasoline_input_top u u' st' (Event.callback d) hinv h
    | text t => exact total_gasoline_input_top u u' st' (Event.text t) hinv h
    | photo f => exact ignore_top u u' _ st' hinv h
  | GASOLINE_USED =>
    cases ev with
    | callback d => exact gasoline_used_input_top u u' st' (Event.callback d) hinv h
    | text t => exact gasoline_used_input_top u u' st' (Event.text t) hinv h
    | photo f => exact ignore_top u u' _ st' hinv h
  | MILEAGE =>
    cases ev with
    | callback d => exact mileage_input_top u u' st' (Event.callback d) hinv h
    | text t => exact mileage_input_top u u' st' (Event.text t) hinv h
    | photo f => exact ignore_top u u' _ st' hinv h
  | MILEAGE_PHOTO =>
    cases ev with
    | callback d => exact mileage_photo_input_top u u' st' (Event.callback d) hinv h
    | text t => exact ignore_top u u' _ st' hinv h
    | photo f => exact mileage_photo_input_top u u' st' (Event.photo f) hinv h
  | BILL_PHOTO =>
    cases ev with
    | callback d => exact bill_photo_input_top u u' st' (Event.callback d) hinv h
    | text t => exact ignore_top u u' _ st' hinv h
    | photo f => exact bill_photo_input_top u u' st' (Event.photo f) hinv h
  | CONFIRM =>
    cases ev with
    | callback d => exact confirm_submission_top repoFails u u' st' (Event.callback d) hinv h
    | text t => exact ignore_top u u' _ st' hinv h
    | photo f => exact ignore_top u u' _ st' hinv h

/-! The claims. -/

/-- C1: when the fuel-used step accepts a value, gasoline_left is set to
exactly total_gasoline minus gasoline_used before advancing to MILEAGE, and
create_report recomputes the same difference before persisting, so every
persisted record satisfies remaining = total - used exactly. -/
theorem C1_remaining_is_total_minus_used :
    (∀ (u : UserData) (t : String) (q : Rat),
      pyParseFloat (pyReplaceCommaDot (pyStrip t)) = some q →
      ∃ u', gasoline_used_input u (Event.text t) = Except.ok (u', Outcome.next .MILEAGE) ∧
        ∃ r, u'.report = some r ∧ r.gasoline_used = q ∧
          r.gasoline_left = r.total_gasoline - r.gasoline_used)
  ∧ (∀ (repoFails : Bool) (d p : ReportData),
      create_report repoFails d = Except.ok p →
      p.gasoline_left = p.total_gasoline - p.gasoline_used) := by
  constructor
  · intro u t q hq
    refine ⟨save_state
        (setReport u (fun r => calculate_gasoline_left { r with gasoline_used := q }))
        .MILEAGE, ?_,
      calculate_gasoline_left { (get_report_data u).1 with gasoline_used := q },
      rfl, rfl, rfl⟩
    simp only [gasoline_used_input, hq]
  · intro repoFails d p hp
    unfold create_report at hp
    split at hp
    · exact absurd hp (by simp)
    · split at hp
      · exact absurd hp (by simp)
      · simp only [Except.ok.injEq] at hp
        subst hp
        rfl

/-- Witness for C1: a session whose total is 200 accepts the used amount 80
and the stored record satisfies left = total - used. -/
theorem C1_witness :
    ∃ u', gasoline_used_input
        { report := some { ReportData.init 7 with total_gasoline := 200 },
          state_history := [ReportStates.CAPTAIN] } (Event.text "80") =
        Except.ok (u', Outcome.next .MILEAGE) ∧
      ∃ r, u'.report = some r ∧ r.gasoline_left = r.total_gasoline - r.gasoline_used := by
  obtain ⟨u', h1, r, h2, _, h4⟩ :=
    C1_remaining_is_total_minus_used.1
      { report := some { ReportData.init 7 with total_gasoline := 200 },
        state_history := [ReportStates.CAPTAIN] } "80" _ rfl
  exact ⟨u', h1, r, h2, h4⟩

/-- C2: the program step stores the selected value and branches on it — the
sentinel "N/A" routes to PRIVATE_PROGRAM, every other value routes directly
to PIER. -/
theorem C2_program_sentinel_branch (u : UserData) (data v : String)
    (hb : data ≠ "back") (hc : data ≠ "cancel")
    (hs : pySplitGet1 data = Except.ok v) :
    program_selected u (Event.callback data) =
      (if v = "N/A" then
        Except.ok
          (save_state (setReport u (fun r => { r with program_name := v })) .PRIVATE_PROGRAM,
           Outcome.next .PRIVATE_PROGRAM)
      else
        Except.ok
          (save_state (setReport u (fun r => { r with program_name := v })) .PIER,
           Outcome.next .PIER)) := by
  simp only [program_selected, if_neg hb, if_neg hc, hs]

/-- Witness for C2: the sentinel goes to the private-route step, a normal
program goes to the pier step. -/
theorem C2_witness :
    program_selected uStart (Event.callback "program:N/A") =
      Except.ok
        (save_state (setReport uStart (fun r => { r with program_name := "N/A" })) .PRIVATE_PROGRAM,
         Outcome.next .PRIVATE_PROGRAM) ∧
    program_selected uStart (Event.callback "program:Snorkel") =
      Except.ok
        (save_state (setReport uStart (fun r => { r with program_name := "Snorkel" })) .PIER,
         Outcome.next .PIER) := by
  constructor
  · simpa using C2_program_sentinel_branch uStart "program:N/A" "N/A"
      (by decide) (by decide) rfl
  · simpa using C2_program_sentinel_branch uStart "program:Snorkel" "Snorkel"
      (by decide) (by decide) rfl

/-- C3 counterexample: the captain step accepts the value "Mallory" and
advances to BOAT even though no button of the offered captain keyboard
["Alice", "Bob"] carries that payload — the claimed rejection of values
outside the option set does not happen. -/
theorem C3_counterexample :
    "captain:Mallory" ∉ build_selection_keyboard ["Alice", "Bob"] "captain" false ∧
    captain_selected uStart (Event.callback "captain:Mallory") =
      Except.ok
        (save_state (setReport uStart (fun r => { r with captain_name := "Mallory" })) .BOAT,
         Outcome.next .BOAT) := by
  exact ⟨by decide, rfl⟩

/-- C3 amended: the closed-choice handlers perform no membership check —
any callback other than back/cancel whose payload contains a colon is
accepted, the substring after the first colon is stored in the record field
and the state advances (the program step is covered by the C2 theorem). -/
theorem C3_amended_no_membership_check (u : UserData) (data v : String)
    (hb : data ≠ "back") (hc : data ≠ "cancel")
    (hs : pySplitGet1 data = Except.ok v) :
    captain_selected u (Event.callback data) =
      Except.ok
        (save_state (setReport u (fun r => { r with captain_name := v })) .BOAT,
         Outcome.next .BOAT) ∧
    boat_selected u (Event.callback data) =
      Except.ok
        (save_state (setReport u (fun r => { r with boat_name := v })) .PROGRAM,
         Outcome.next .PROGRAM) ∧
    private_program_selected u (Event.callback data) =
      Except.ok
        (save_state (setReport u (fun r => { r with private_program := some v })) .PIER,
         Outcome.next .PIER) ∧
    pier_selected u (Event.callback data) =
      Except.ok
        (save_state (setReport u (fun r => { r with departure_pier := v })) .DEPARTURE_DATE,
         Outcome.next .DEPARTURE_DATE) := by
  refine ⟨?_, ?_, ?_, ?_⟩
  · simp only [captain_selected, if_neg hb, if_neg hc, hs]
  · simp only [boat_selected, if_neg hb, if_neg hc, hs]
  · simp only [private_program_selected, if_neg hb, if_neg hc, hs]
  · simp only [pier_selected, if_neg hb, if_neg hc, hs]

/-- Witness for C3 amended: a pier value outside any offered list is stored
and the flow advances. -/
theorem C3_witness :
    pier_selected uStart (Event.callback "pier:Nowhere") =
      Except.ok
        (save_state (setReport uStart (fun r => { r with departure_pier := "Nowhere" })) .DEPARTURE_DATE,
         Outcome.next .DEPARTURE_DATE) :=
  (C3_amended_no_membership_check uStart "pier:Nowhere" "Nowhere"
    (by decide) (by decide) rfl).2.2.2

/-- C4 counterexample: at CONFIRM with a complete record and a failing
repository, submit ends the conversation but user_data keeps both the record
and the full history — the session is not cleared on the raising path. -/
theorem C4_counterexample :
    confirm_submission true uC (Event.callback "confirm:yes") =
      Except.ok (uC, Outcome.ended) ∧
    uC.report = some rC ∧ uC.state_history ≠ [] := by
  refine ⟨rfl, rfl, by decide⟩

/-- C4 amended: after submit at CONFIRM the conversation always terminates
and is never retried, but user_data is cleared only when create_report
succeeds; when it raises, the record and the history survive untouched. -/
theorem C4_amended_clear_only_on_success (repoFails : Bool) (u : UserData) (data : String)
    (hy : pySplitGet1 data = Except.ok "yes") :
    ∃ u', confirm_submission repoFails u (Event.callback data) =
        Except.ok (u', Outcome.ended) ∧
      (((∃ p, create_report repoFails (get_report_data u).1 = Except.ok p) ∧
          u' = UserData.cleared) ∨
       ((∃ e, create_report repoFails (get_report_data u).1 = Except.error e) ∧
          u'.report = some (get_report_data u).1 ∧
          u'.state_history = u.state_history)) := by
  cases hcr : create_report repoFails (get_report_data u).1 with
  | ok p =>
    refine ⟨UserData.cleared, ?_, Or.inl ⟨⟨p, rfl⟩, rfl⟩⟩
    simp [confirm_submission, hy, hcr]
  | error e =>
    refine ⟨(get_report_data u).2, ?_, Or.inr ⟨⟨e, rfl⟩, ?_, ?_⟩⟩
    · simp [confirm_submission, hy, hcr]
    · cases hu : u.report <;> simp [get_report_data, hu]
    · cases hu : u.report <;> simp [get_report_data, hu]

/-- Witness for C4 amended: with a working repository the submit at CONFIRM
ends the conversation. -/
theorem C4_witness :
    ∃ u', confirm_submission false uC (Event.callback "confirm:yes") =
        Except.ok (u', Outcome.ended) ∧
      (((∃ p, create_report false (get_report_data uC).1 = Except.ok p) ∧
          u' = UserData.cleared) ∨
       ((∃ e, create_report false (get_report_data uC).1 = Except.error e) ∧
          u'.report = some (get_report_data uC).1 ∧
          u'.state_history = uC.state_history)) :=
  C4_amended_clear_only_on_success false uC "confirm:yes" rfl

/-- C5 counterexample: a record whose fuel quantities are all zero but whose
other required fields are filled is persisted without any validation error,
although the claim requires a raise for zero fuel quantities. -/
theorem C5_counterexample :
    rC.total_gasoline = 0 ∧ rC.gasoline_refuel = 0 ∧ rC.gasoline_used = 0 ∧
    create_report false rC = Except.ok (calculate_gasoline_left rC) :=
  ⟨rfl, rfl, rfl, rfl⟩

/-- is_complete holds exactly when captain, boat, program and pier are
nonempty, the three dates are present and max_speed is positive. -/
theorem is_complete_iff (d : ReportData) :
    d.is_complete = true ↔
      (d.captain_name ≠ "" ∧ d.boat_name ≠ "" ∧ d.program_name ≠ "" ∧
       d.departure_pier ≠ "" ∧ d.departure_date ≠ none ∧ d.return_date ≠ none ∧
       d.refill_date ≠ none ∧ 0 < d.max_speed) := by
  simp [ReportData.is_complete, Option.isSome_iff_ne_none, and_assoc]

/-- is_complete fails exactly when one of the eight checked fields is empty,
absent or non-positive. -/
theorem is_complete_false_iff (d : ReportData) :
    d.is_complete = false ↔
      (d.captain_name = "" ∨ d.boat_name = "" ∨ d.program_name = "" ∨
       d.departure_pier = "" ∨ d.departure_date = none ∨ d.return_date = none ∨
       d.refill_date = none ∨ d.max_speed ≤ 0) := by
  rw [← Bool.not_eq_true, is_complete_iff]
  simp only [not_and_or, ne_eq, not_not, not_lt]

/-- C5 amended: create_report raises its validation error exactly when one of
captain, boat, program, pier, the three dates or max speed is empty, absent
or non-positive; the fuel quantities are not checked, and when the checked
fields are filled the record is persisted with gasoline_left recomputed. -/
theorem C5_amended_required_fields (repoFails : Bool) (d : ReportData) :
    ((create_report repoFails d = Except.error "Not all required fields are filled") ↔
      (d.captain_name = "" ∨ d.boat_name = "" ∨ d.program_name = "" ∨
       d.departure_pier = "" ∨ d.departure_date = none ∨ d.return_date = none ∨
       d.refill_date = none ∨ d.max_speed ≤ 0))
  ∧ (d.is_complete = true →
      create_report false d = Except.ok (calculate_gasoline_left d)) := by
  constructor
  · rw [← is_complete_false_iff]
    unfold create_report
    cases hC : d.is_complete
    · simp
    · cases repoFails <;> simp
  · intro hC
    unfold create_report
    simp [hC]

/-- Witness for C5 amended: the complete record rC is persisted. -/
theorem C5_witness :
    create_report false rC = Except.ok (calculate_gasoline_left rC) :=
  (C5_amended_required_fields false rC).2 rfl

/-- C6 counterexample: back issued at GASOLINE_REFUEL pops to MAX_SPEED with
the record intact, but goto_state has no branch for MAX_SPEED, so the
previous step is not re-rendered — no prompt is emitted at all. -/
theorem C6_counterexample :
    handle_back u9 =
      Except.ok ({ u9 with state_history := u9.state_history.dropLast },
        Outcome.next .MAX_SPEED) ∧
    handle_back_rendered u9 = none :=
  ⟨rfl, rfl⟩

/-- C6 amended: back pops the current step and moves to the new history top
with no record field touched; the previous step is re-rendered exactly when
it is one of the selection or date steps (goto_state renders nothing for the
later steps); when the stack holds at most one entry, back is exactly
cancel. -/
theorem C6_amended_back_navigation (u : UserData) :
    (∀ prev, u.state_history.length > 1 →
      u.state_history.dropLast.getLast? = some prev →
      handle_back u =
        Except.ok ({ u with state_history := u.state_history.dropLast },
          Outcome.next prev) ∧
      ({ u with state_history := u.state_history.dropLast } : UserData).report = u.report ∧
      handle_back_rendered u = (if goto_state_renders prev then some prev else none))
  ∧ (u.state_history.length ≤ 1 →
      handle_back u = Except.ok (UserData.cleared, Outcome.ended)) := by
  constructor
  · intro prev hlen hprev
    refine ⟨?_, rfl, ?_⟩
    · simp only [handle_back, if_pos hlen, hprev, goto_state]
    · simp only [handle_back_rendered, if_pos hlen, hprev, goto_state]
  · intro hle
    have hn : ¬ u.state_history.length > 1 := by omega
    simp only [handle_back, if_neg hn, cancel]

/-- Witness for C6 amended: back at PIER after the program step returns to
PROGRAM, which is re-rendered, with the record untouched. -/
theorem C6_witness :
    handle_back uP =
      Except.ok ({ uP with state_history := uP.state_history.dropLast },
        Outcome.next .PROGRAM) ∧
    ({ uP with state_history := uP.state_history.dropLast } : UserData).report = uP.report ∧
    handle_back_rendered uP = (if goto_state_renders .PROGRAM then some .PROGRAM else none) :=
  (C6_amended_back_navigation uP).1 .PROGRAM (by decide) rfl

/-- C7 counterexample: a stale colon-free callback at the captain step raises
IndexError, and a stale captain button arriving at the max-speed step raises
AttributeError — the handlers do raise. -/
theorem C7_counterexample :
    dispatch false .CAPTAIN uStart (Event.callback "stale") =
      Except.error PyError.indexError ∧
    dispatch false .MAX_SPEED uStart (Event.callback "captain:Alice") =
      Except.error PyError.attributeError :=
  ⟨rfl, rfl⟩

theorem exists_ok_of_eq {α : Type} {e : Except PyError α} {x : α}
    (h : e = Except.ok x) : ∃ r, e = Except.ok r := ⟨x, h⟩

theorem pySplitGet1_ok_of_hasColon (d : String) (h : hasColon d = true) :
    ∃ v, pySplitGet1 d = Except.ok v := by
  unfold hasColon at h
  unfold pySplitGet1
  cases hs : pySplit ':' d with
  | nil => rw [hs] at h; simp at h
  | cons a t =>
    cases t with
    | nil => rw [hs] at h; simp at h
    | cons b t2 => exact ⟨b, rfl⟩

theorem pySplitGet1_error_of_noColon (d : String) (h : hasColon d = false) :
    pySplitGet1 d = Except.error PyError.indexError := by
  unfold hasColon at h
  unfold pySplitGet1
  cases hs : pySplit ':' d with
  | nil => rfl
  | cons a t =>
    cases t with
    | nil => rfl
    | cons b t2 => rw [hs] at h; simp at h

theorem handle_back_ok (u : UserData) : ∃ r, handle_back u = Except.ok r := by
  by_cases hlen : u.state_history.length > 1
  · cases hg : u.state_history.dropLast.getLast? with
    | some prev =>
      exact exists_ok_of_eq (by simp only [handle_back, if_pos hlen, hg]; rfl)
    | none =>
      exfalso
      rw [List.getLast?_eq_none_iff] at hg
      have h1 := List.length_dropLast u.state_history
      rw [hg] at h1
      simp at h1
      omega
  · exact exists_ok_of_eq (by simp only [handle_back, if_neg hlen]; rfl)

theorem captain_recognized_ok (u : UserData) (d : String)
    (h1 : headTok d = "captain") (h2 : hasColon d = true) :
    ∃ r, captain_selected u (Event.callback d) = Except.ok r := by
  have hb : d ≠ "back" := fun he => by subst he; exact absurd h1 (by decide)
  have hc : d ≠ "cancel" := fun he => by subst he; exact absurd h1 (by decide)
  obtain ⟨v, hv⟩ := pySplitGet1_ok_of_hasColon d h2
  exact exists_ok_of_eq (by simp only [captain_selected, if_neg hb, if_neg hc, hv]; rfl)

theorem boat_recognized_ok (u : UserData) (d : String)
    (h1 : headTok d = "boat") (h2 : hasColon d = true) :
    ∃ r, boat_selected u (Event.callback d) = Except.ok r := by
  have hb : d ≠ "back" := fun he => by subst he; exact absurd h1 (by decide)
  have hc : d ≠ "cancel" := fun he => by subst he; exact absurd h1 (by decide)
  obtain ⟨v, hv⟩ := pySplitGet1_ok_of_hasColon d h2
  exact exists_ok_of_eq (by simp only [boat_selected, if_neg hb, if_neg hc, hv]; rfl)

theorem program_recognized_ok (u : UserData) (d : String)
    (h1 : headTok d = "program") (h2 : hasColon d = true) :
    ∃ r, program_selected u (Event.callback d) = Except.ok r := by
  have hb : d ≠ "back" := fun he => by subst he; exact absurd h1 (by decide)
  have hc : d ≠ "cancel" := fun he => by subst he; exact absurd h1 (by decide)
  obtain ⟨v, hv⟩ := pySplitGet1_ok_of_hasColon d h2
  by_cases hna : v = "N/A"
  · exact exists_ok_of_eq (by simp only [program_selected, if_neg hb, if_neg hc, hv, if_pos hna]; rfl)
  · exact exists_ok_of_eq (by simp only [program_selected, if_neg hb, if_neg hc, hv, if_neg hna]; rfl)

theorem private_program_recognized_ok (u : UserData) (d : String)
    (h1 : headTok d = "private_program") (h2 : hasColon d = true) :
    ∃ r, private_program_selected u (Event.callback d) = Except.ok r := by
  have hb : d ≠ "back" := fun he => by subst he; exact absurd h1 (by decide)
  have hc : d ≠ "cancel" := fun he => by subst he; exact absurd h1 (by decide)
  obtain ⟨v, hv⟩ := pySplitGet1_ok_of_hasColon d h2
  exact exists_ok_of_eq (by simp only [private_program_selected, if_neg hb, if_neg hc, hv]; rfl)

theorem pier_recognized_ok (u : UserData) (d : String)
    (h1 : headTok d = "pier") (h2 : hasColon d = true) :
    ∃ r, pier_selected u (Event.callback d) = Except.ok r := by
  have hb : d ≠ "back" := fun he => by subst he; exact absurd h1 (by decide)
  have hc : d ≠ "cancel" := fun he => by subst he; exact absurd h1 (by decide)
  obtain ⟨v, hv⟩ := pySplitGet1_ok_of_hasColon d h2
  exact exists_ok_of_eq (by simp only [pier_selected, if_neg hb, if_neg hc, hv]; rfl)

theorem departure_date_callback_ok (u : UserData) (d : String) :
    ∃ r, departure_date_input u (Event.callback d) = Except.ok r := by
  by_cases hb : d = "back"
  · subst hb; exact handle_back_ok u
  · by_cases hc : d = "cancel"
    · subst hc; exact ⟨_, rfl⟩
    · cases hs : pySplit ':' d with
      | nil => exact exists_ok_of_eq (by simp only [departure_date_input, if_neg hb, if_neg hc, hs]; rfl)
      | cons a t =>
        cases t with
        | nil => exact exists_ok_of_eq (by simp only [departure_date_input, if_neg hb, if_neg hc, hs]; rfl)
        | cons ds t2 =>
          cases hdf : date_fromisoformat ds <;>
            exact exists_ok_of_eq (by simp only [departure_date_input, if_neg hb, if_neg hc, hs, hdf]; rfl)

theorem return_date_callback_ok (u : UserData) (d : String) :
    ∃ r, return_date_input u (Event.callback d) = Except.ok r := by
  by_cases hb : d = "back"
  · subst hb; exact handle_back_ok u
  · by_cases hc : d = "cancel"
    · subst hc; exact ⟨_, rfl⟩
    · cases hs : pySplit ':' d with
      | nil => exact exists_ok_of_eq (by simp only [return_date_input, if_neg hb, if_neg hc, hs]; rfl)
      | cons a t =>
        cases t with
        | nil => exact exists_ok_of_eq (by simp only [return_date_input, if_neg hb, if_neg hc, hs]; rfl)
        | cons ds t2 =>
          cases hdf : date_fromisoformat ds <;>
            exact exists_ok_of_eq (by simp only [return_date_input, if_neg hb, if_neg hc, hs, hdf]; rfl)

theorem refill_date_callback_ok (u : UserData) (d : String) :
    ∃ r, refill_date_input u (Event.callback d) = Except.ok r := by
  by_cases hb : d = "back"
  · subst hb; exact handle_back_ok u
  · by_cases hc : d = "cancel"
    · subst hc; exact ⟨_, rfl⟩
    · cases hs : pySplit ':' d with
      | nil => exact exists_ok_of_eq (by simp only [refill_date_input, if_neg hb, if_neg hc, hs]; rfl)
      | cons a t =>
        cases t with
        | nil => exact exists_ok_of_eq (by simp only [refill_date_input, if_neg hb, if_neg hc, hs]; rfl)
        | cons ds t2 =>
          cases hdf : date_fromisoformat ds <;>
            exact exists_ok_of_eq (by simp only [refill_date_input, if_neg hb, if_neg hc, hs, hdf]; rfl)

theorem bill_photo_callback_ok (u : UserData) (d : String) :
    ∃ r, bill_photo_input u (Event.callback d) = Except.ok r := by
  by_cases hb : d = "back"
  · subst hb; exact handle_back_ok u
  · by_cases hc : d = "cancel"
    · subst hc; exact ⟨_, rfl⟩
    · exact exists_ok_of_eq (by simp only [bill_photo_input, if_neg hb, if_neg hc]; rfl)

theorem confirm_yes_ok (repoFails : Bool) (u : UserData) :
    ∃ r, confirm_submission repoFails u (Event.callback "confirm:yes") = Except.ok r := by
  have hstep : confirm_submission repoFails u (Event.callback "confirm:yes") =
      (match create_report repoFails (get_report_data u).1 with
       | Except.ok _ => Except.ok (UserData.cleared, Outcome.ended)
       | Except.error _ => Except.ok ((get_report_data u).2, Outcome.ended)) := rfl
  rw [hstep]
  cases create_report repoFails (get_report_data u).1 <;> exact ⟨_, rfl⟩

/-- C7 amended: events with no registered handler for the current step are
silently ignored with the session unchanged, and the payloads the current
step's own render offers never raise; but the handlers themselves can raise
on unrecognized callbacks: a colon-free payload other than back/cancel
raises IndexError at all six split-based steps (captain, boat, program,
private-route, pier, confirm), and any non-back/cancel callback raises
AttributeError at all four free-text numeric steps, where the code falls
through to update.message on a callback update. -/
theorem C7_amended_unroutable (repoFails : Bool) :
    (∀ (st : ReportStates) (u : UserData) (ev : Event), registered st ev = false →
      dispatch repoFails st u ev = Except.ok (u, Outcome.next st))
  ∧ (∀ (st : ReportStates) (u : UserData) (ev : Event), recognized st ev = true →
      ∃ r, dispatch repoFails st u ev = Except.ok r)
  ∧ (∀ (u : UserData) (data : String), data ≠ "back" → data ≠ "cancel" →
      hasColon data = false →
      captain_selected u (Event.callback data) = Except.error PyError.indexError ∧
      boat_selected u (Event.callback data) = Except.error PyError.indexError ∧
      program_selected u (Event.callback data) = Except.error PyError.indexError ∧
      private_program_selected u (Event.callback data) = Except.error PyError.indexError ∧
      pier_selected u (Event.callback data) = Except.error PyError.indexError ∧
      confirm_submission repoFails u (Event.callback data) = Except.error PyError.indexError)
  ∧ (∀ (u : UserData) (data : String), data ≠ "back" → data ≠ "cancel" →
      max_speed_input u (Event.callback data) = Except.error PyError.attributeError ∧
      gasoline_refuel_input u (Event.callback data) = Except.error PyError.attributeError ∧
      total_gasoline_input u (Event.callback data) = Except.error PyError.attributeError ∧
      gasoline_used_input u (Event.callback data) = Except.error PyError.attributeError) := by
  refine ⟨?_, ?_, ?_, ?_⟩
  · intro st u ev hreg
    cases st <;> cases ev <;> simp_all [registered, dispatch]
  · intro st u ev h
    cases st with
    | CAPTAIN =>
      cases ev with
      | callback d =>
        simp only [recognized, Bool.and_eq_true, beq_iff_eq] at h
        exact captain_recognized_ok u d h.1 h.2
      | text t => exact absurd h (by simp [recognized])
      | photo f => exact absurd h (by simp [recognized])
    | BOAT =>
      cases ev with
      | callback d =>
        simp only [recognized, Bool.or_eq_true, Bool.and_eq_true, beq_iff_eq] at h
        rcases h with (rfl | rfl) | ⟨h1, h2⟩
        · exact handle_back_ok u
        · exact ⟨_, rfl⟩
        · exact boat_recognized_ok u d h1 h2
      | text t => exact absurd h (by simp [recognized])
      | photo f => exact absurd h (by simp [recognized])
    | PROGRAM =>
      cases ev with
      | callback d =>
        simp only [recognized, Bool.or_eq_true, Bool.and_eq_true, beq_iff_eq] at h
        rcases h with (rfl | rfl) | ⟨h1, h2⟩
        · exact handle_back_ok u
        · exact ⟨_, rfl⟩
        · exact program_recognized_ok u d h1 h2
      | text t => exact absurd h (by simp [recognized])
      | photo f => exact absurd h (by simp [recognized])
    | PRIVATE_PROGRAM =>
      cases ev with
      | callback d =>
        simp only [recognized, Bool.or_eq_true, Bool.and_eq_true, beq_iff_eq] at h
        rcases h with (rfl | rfl) | ⟨h1, h2⟩
        · exact handle_back_ok u
        · exact ⟨_, rfl⟩
        · exact private_program_recognized_ok u d h1 h2
      | text t => exact absurd h (by simp [recognized])
      | photo f => exact absurd h (by simp [recognized])
    | PIER =>
      cases ev with
      | callback d =>
        simp only [recognized, Bool.or_eq_true, Bool.and_eq_true, beq_iff_eq] at h
        rcases h with (rfl | rfl) | ⟨h1, h2⟩
        · exact handle_back_ok u
        · exact ⟨_, rfl⟩
        · exact pier_recognized_ok u d h1 h2
      | text t => exact absurd h (by simp [recognized])
      | photo f => exact absurd h (by simp [recognized])
    | DEPARTURE_DATE =>
      cases ev with
      | callback d => exact departure_date_callback_ok u d
      | text t =>
        cases hp : parse_date t <;>
          exact exists_ok_of_eq (by simp only [dispatch, departure_date_input, hp]; rfl)
      | photo f => exact absurd h (by simp [recognized])
    | RETURN_DATE =>
      cases ev with
      | callback d => exact return_date_callback_ok u d
      | text t =>
        cases hp : parse_date t <;>
          exact exists_ok_of_eq (by simp only [dispatch, return_date_input, hp]; rfl)
      | photo f => exact absurd h (by simp [recognized])
    | REFILL_DATE =>
      cases ev with
      | callback d => exact refill_date_callback_ok u d
      | text t =>
        cases hp : parse_date t <;>
          exact exists_ok_of_eq (by simp only [dispatch, refill_date_input, hp]; rfl)
      | photo f => exact absurd h (by simp [recognized])
    | MAX_SPEED =>
      cases ev with
      | callback d =>
        simp only [recognized, Bool.or_eq_true, beq_iff_eq] at h
        rcases h with rfl | rfl
        · exact handle_back_ok u
        · exact ⟨_, rfl⟩
      | text t =>
        cases hp : pyParseInt (pyStrip t) <;>
          exact exists_ok_of_eq (by simp only [dispatch, max_speed_input, hp]; rfl)
      | photo f => exact absurd h (by simp [recognized])
    | GASOLINE_REFUEL =>
      cases ev with
      | callback d =>
        simp only [recognized, Bool.or_eq_true, beq_iff_eq] at h
        rcases h with rfl | rfl
        · exact handle_back_ok u
        · exact ⟨_, rfl⟩
      | text t =>
        cases hp : pyParseFloat (pyReplaceCommaDot (pyStrip t)) <;>
          exact exists_ok_of_eq (by simp only [dispatch, gasoline_refuel_input, hp]; rfl)
      | photo f => exact absurd h (by simp [recognized])
    | TOTAL_GASOLINE =>
      cases ev with
      | callback d =>
        simp only [recognized, Bool.or_eq_true, beq_iff_eq] at h
        rcases h with rfl | rfl
        · exact handle_back_ok u
        · exact ⟨_, rfl⟩
      | text t =>
        cases hp : pyParseFloat (pyReplaceCommaDot (pyStrip t)) <;>
          exact exists_ok_of_eq (by simp only [dispatch, total_gasoline_input, hp]; rfl)
      | photo f => exact absurd h (by simp [recognized])
    | GASOLINE_USED =>
      cases ev with
      | callback d =>
        simp only [recognized, Bool.or_eq_true, beq_iff_eq] at h
        rcases h with rfl | rfl
        · exact handle_back_ok u
        · exact ⟨_, rfl⟩
      | text t =>
        cases hp : pyParseFloat (pyReplaceCommaDot (pyStrip t)) <;>
          exact exists_ok_of_eq (by simp only [dispatch, gasoline_used_input, hp]; rfl)
      | photo f => exact absurd h (by simp [recognized])
    | MILEAGE =>
      cases ev with
      | callback d =>
        simp only [recognized, Bool.or_eq_true, beq_iff_eq] at h
        rcases h with (rfl | rfl) | rfl
        · exact handle_back_ok u
        · exact ⟨_, rfl⟩
        · exact ⟨_, rfl⟩
      | text t =>
        cases hp : pyParseFloat (pyReplaceCommaDot (pyStrip t)) <;>
          exact exists_ok_of_eq (by simp only [dispatch, mileage_input, hp]; rfl)
      | photo f => exact absurd h (by simp [recognized])
    | MILEAGE_PHOTO =>
      cases ev with
      | callback d =>
        simp only [recognized, Bool.or_eq_true, beq_iff_eq] at h
        rcases h with (rfl | rfl) | rfl
        · exact handle_back_ok u
        · exact ⟨_, rfl⟩
        · exact ⟨_, rfl⟩
      | text t => exact absurd h (by simp [recognized])
      | photo f => exact ⟨_, rfl⟩
    | BILL_PHOTO =>
      cases ev with
      | callback d => exact bill_photo_callback_ok u d
      | text t => exact absurd h (by simp [recognized])
      | photo f => exact ⟨_, rfl⟩
    | CONFIRM =>
      cases ev with
      | callback d =>
        simp only [recognized, Bool.or_eq_true, beq_iff_eq] at h
        rcases h with (rfl | rfl) | rfl
        · exact confirm_yes_ok repoFails u
        · exact ⟨_, rfl⟩
        · exact ⟨_, rfl⟩
      | text t => exact absurd h (by simp [recognized])
      | photo f => exact absurd h (by simp [recognized])
  · intro u data hb hc hnc
    have hsplit := pySplitGet1_error_of_noColon data hnc
    refine ⟨?_, ?_, ?_, ?_, ?_, ?_⟩
    · simp only [captain_selected, if_neg hb, if_neg hc, hsplit]
    · simp only [boat_selected, if_neg hb, if_neg hc, hsplit]
    · simp only [program_selected, if_neg hb, if_neg hc, hsplit]
    · simp only [private_program_selected, if_neg hb, if_neg hc, hsplit]
    · simp only [pier_selected, if_neg hb, if_neg hc, hsplit]
    · simp only [confirm_submission, hsplit]
  · intro u data hb hc
    refine ⟨?_, ?_, ?_, ?_⟩
    · simp only [max_speed_input, if_neg hb, if_neg hc]
    · simp only [gasoline_refuel_input, if_neg hb, if_neg hc]
    · simp only [total_gasoline_input, if_neg hb, if_neg hc]
    · simp only [gasoline_used_input, if_neg hb, if_neg hc]

/-- Witness for C7 amended: a text message at the captain step is ignored, a
recognized boat button is handled without raising, a stale colon-free button
at the pier step raises IndexError, and a stale captain button at the
fuel-used step raises AttributeError. -/
theorem C7_witness :
    dispatch false .CAPTAIN uStart (Event.text "hello") =
      Except.ok (uStart, Outcome.next .CAPTAIN) ∧
    (∃ r, dispatch false .BOAT uStart (Event.callback "boat:Orca") = Except.ok r) ∧
    pier_selected uStart (Event.callback "stale") = Except.error PyError.indexError ∧
    gasoline_used_input uStart (Event.callback "captain:Alice") =
      Except.error PyError.attributeError :=
  ⟨(C7_amended_unroutable false).1 .CAPTAIN uStart (Event.text "hello") rfl,
   (C7_amended_unroutable false).2.1 .BOAT uStart (Event.callback "boat:Orca") rfl,
   ((C7_amended_unroutable false).2.2.1 uStart "stale"
     (by decide) (by decide) rfl).2.2.2.2.1,
   ((C7_amended_unroutable false).2.2.2 uStart "captain:Alice"
     (by decide) (by decide)).2.2.2⟩

/-- C8 counterexample: with the loaded allow-list containing only the id 5,
the inbound zero user-identifier is denied — the inbound zero id is not a
bypass. -/
theorem C8_counterexample : is_allowed [5] 0 = false := rfl

/-- C8 amended: the bypass keys on the allow-list contents, not on the
inbound id — is_allowed returns true exactly when the loaded list contains
the id 0 (then everyone is allowed) or contains the inbound id itself. -/
theorem C8_amended_zero_in_list (users : List Int) (telegram_id : Int) :
    is_allowed users telegram_id =
      (decide ((0 : Int) ∈ users) || decide (telegram_id ∈ users)) := by
  unfold is_allowed
  split <;> simp_all

/-- C9: the history-stack invariant — in every reachable state of an active
session the top of the history stack is the current step and the stack is
nonempty; it holds after start_report and is preserved by every dispatched
event. -/
theorem C9_history_stack_invariant (repoFails : Bool) (st : ReportStates) (u : UserData)
    (h : Reaches repoFails st u) :
    histTop u = some st ∧ u.state_history ≠ [] := by
  induction h with
  | start users uid u0 u1 st0 hs =>
    have ht := start_report_top users uid u0 u1 st0 hs
    refine ⟨ht, ?_⟩
    intro hnil
    rw [histTop, hnil] at ht
    simp at ht
  | step st0 u0 ev u1 st1 hr hd ih =>
    have ht := dispatch_top repoFails st0 st1 u0 u1 ev ih.1 hd
    refine ⟨ht, ?_⟩
    intro hnil
    rw [histTop, hnil] at ht
    simp at ht

/-- Witness for C9: after start_report and a captain selection, BOAT is on
top of the stack and the stack is nonempty. -/
theorem C9_witness :
    histTop (save_state (setReport uStart (fun r => { r with captain_name := "Alice" })) .BOAT) =
      some .BOAT ∧
    (save_state (setReport uStart (fun r => { r with captain_name := "Alice" })) .BOAT).state_history ≠
      [] :=
  C9_history_stack_invariant false .BOAT _
    (Reaches.step .CAPTAIN uStart (Event.callback "captain:Alice") _ .BOAT
      (Reaches.start [7] 7 {} uStart .CAPTAIN rfl) rfl)

/-- C10: at the three optional steps any callback whose payload contains the
substring "skip" anywhere — not only the exact field:skip token — clears the
corresponding field and advances to the next step. -/
theorem C10_skip_is_substring_match (u : UserData) (data : String)
    (hskip : pyInStr "skip" data = true) :
    mileage_input u (Event.callback data) =
      Except.ok
        (save_state (setReport u (fun r => { r with mileage_ride := none })) .MILEAGE_PHOTO,
         Outcome.next .MILEAGE_PHOTO) ∧
    mileage_photo_input u (Event.callback data) =
      Except.ok
        (save_state (setReport u (fun r => { r with mileage_photo_id := none })) .BILL_PHOTO,
         Outcome.next .BILL_PHOTO) ∧
    bill_photo_input u (Event.callback data) =
      Except.ok
        (save_state (setReport u (fun r => { r with bill_photo_id := none })) .CONFIRM,
         Outcome.next .CONFIRM) := by
  have hb : data ≠ "back" := by
    intro he
    subst he
    exact absurd hskip (by decide)
  have hc : data ≠ "cancel" := by
    intro he
    subst he
    exact absurd hskip (by decide)
  refine ⟨?_, ?_, ?_⟩
  · simp only [mileage_input, if_neg hb, if_neg hc, hskip, if_true]
  · simp only [mileage_photo_input, if_neg hb, if_neg hc, hskip, if_true]
  · simp only [bill_photo_input, if_neg hb, if_neg hc, hskip, if_true]

/-- Witness for C10: a payload that merely contains "skip" in the middle is
treated as the skip command at the mileage step. -/
theorem C10_witness :
    mileage_input uStart (Event.callback "xxskipyy") =
      Except.ok
        (save_state (setReport uStart (fun r => { r with mileage_ride := none })) .MILEAGE_PHOTO,
         Outcome.next .MILEAGE_PHOTO) :=
  (C10_skip_is_substring_match uStart "xxskipyy" rfl).1

end GasReport
